import Mathlib

set_option autoImplicit false

/-!
# Verification of the fitness-metrics calculator (`homework.py`)

Shallow embedding of the module: Python floats are modelled as exact
rationals (`ℚ`), Python exceptions as an explicit `Except PyError` result,
and the class hierarchy `Training` / `Running` / `SportsWalking` /
`Swimming` as an inductive type with one constructor per class (including
a `base` constructor for direct instances of the base class `Training`).
Method dispatch is the match on the constructor; each arm is the literal
translation of the overriding method's body.

Divisions whose divisor is a runtime value (`self.duration`,
`height_into_m`) go through `pdiv`, which models Python's
`ZeroDivisionError`; divisions by the nonzero literal constants
`M_IN_KM = 1000` and `M_TO_CM = 100` cannot raise and are plain `/`.
-/

/-- Exception kinds the module can raise. -/
inductive PyError where
  | notImplementedError (msg : String)
  | valueError (msg : String)
  | typeError (msg : String)
  | zeroDivisionError
deriving DecidableEq, Repr

/-- Python division on numbers: raises `ZeroDivisionError` when the
divisor is 0. -/
def pdiv (a b : ℚ) : Except PyError ℚ :=
  if b = 0 then .error .zeroDivisionError else .ok (a / b)

/-- Dataclass `InfoMessage`: the computed workout result record. -/
structure InfoMessage where
  training_type : String
  duration : ℚ
  distance : ℚ
  speed : ℚ
  calories : ℚ
deriving DecidableEq, Repr

/-- The class hierarchy as a sum: `base` is a direct instance of class
`Training`; the other three constructors are the subclasses, each carrying
the fields set by its `__init__`. -/
inductive Training where
  | base (action duration weight : ℚ)
  | running (action duration weight : ℚ)
  | sportsWalking (action duration weight height : ℚ)
  | swimming (action duration weight length_pool count_pool : ℚ)
deriving DecidableEq, Repr

namespace Training

/-- Field `self.action` (set by the shared `Training.__init__`). -/
def action : Training → ℚ
  | .base a _ _ => a
  | .running a _ _ => a
  | .sportsWalking a _ _ _ => a
  | .swimming a _ _ _ _ => a

/-- Field `self.duration` (set by the shared `Training.__init__`). -/
def duration : Training → ℚ
  | .base _ d _ => d
  | .running _ d _ => d
  | .sportsWalking _ d _ _ => d
  | .swimming _ d _ _ _ => d

/-- Field `self.weight` (set by the shared `Training.__init__`). -/
def weight : Training → ℚ
  | .base _ _ w => w
  | .running _ _ w => w
  | .sportsWalking _ _ w _ => w
  | .swimming _ _ w _ _ => w

/-- Class attribute `M_IN_KM = 1000`. -/
def M_IN_KM : ℚ := 1000

/-- Class attribute `HOUR_TO_MIN = 60`. -/
def HOUR_TO_MIN : ℚ := 60

/-- Class attribute `LEN_STEP`: `0.65` on `Training` (inherited by
`Running` and `SportsWalking`), overridden to `1.38` on `Swimming`. -/
def LEN_STEP : Training → ℚ
  | .swimming _ _ _ _ _ => 1.38
  | _ => 0.65

/-- Value of `self.__class__.__name__`. -/
def className : Training → String
  | .base _ _ _ => "Training"
  | .running _ _ _ => "Running"
  | .sportsWalking _ _ _ _ => "SportsWalking"
  | .swimming _ _ _ _ _ => "Swimming"

/-- Method `Training.get_distance`:
`self.action * self.LEN_STEP / self.M_IN_KM` (not overridden by any
subclass). -/
def get_distance (t : Training) : ℚ :=
  t.action * t.LEN_STEP / M_IN_KM

/-- Method `get_mean_speed`: the base class returns
`self.get_distance() / self.duration`; `Swimming` overrides it with
`self.length_pool * self.count_pool / self.M_IN_KM / self.duration`. -/
def get_mean_speed (t : Training) : Except PyError ℚ :=
  match t with
  | .swimming _ d _ lp cp => pdiv (lp * cp / M_IN_KM) d
  | _ => pdiv t.get_distance t.duration

/-- Class attribute `Running.CALORIES_MEAN_SPEED_MULTIPLIER: float = 18.0`. -/
def CALORIES_MEAN_SPEED_MULTIPLIER : ℚ := 18.0

/-- Class attribute `Running.CALORIES_MEAN_SPEED_SHIFT: float = 1.79`. -/
def CALORIES_MEAN_SPEED_SHIFT : ℚ := 1.79

/-- Class attribute `SportsWalking.MULTIPLIER_1_OF_WEIGHT: float = 0.035`. -/
def MULTIPLIER_1_OF_WEIGHT : ℚ := 0.035

/-- Class attribute `SportsWalking.MULTIPLIER_2_OF_WEIGHT: float = 0.029`. -/
def MULTIPLIER_2_OF_WEIGHT : ℚ := 0.029

/-- Class attribute `SportsWalking.KMH_TO_MSEC: float = 0.278`. -/
def KMH_TO_MSEC : ℚ := 0.278

/-- Class attribute `SportsWalking.M_TO_CM: float = 100`. -/
def M_TO_CM : ℚ := 100

/-- Class attribute `Swimming.CALORIES_MEAN_SPEED_SHIFT_SWM: float = 1.1`. -/
def CALORIES_MEAN_SPEED_SHIFT_SWM : ℚ := 1.1

/-- Class attribute `Swimming.CALORIES_MEAN_SPEED_MULTIPLIER_SWM: float = 2`. -/
def CALORIES_MEAN_SPEED_MULTIPLIER_SWM : ℚ := 2

/-- Message of the `NotImplementedError` raised by
`Training.get_spent_calories` (source typo preserved). -/
def notImplMsg : String :=
  "Данный метод реализуется отделно для каждого дочернего класса"

/-- Method `get_spent_calories`: the base class raises
`NotImplementedError`; each subclass overrides it with its own calorie
formula, evaluated on the value of `self.get_mean_speed()`. -/
def get_spent_calories (t : Training) : Except PyError ℚ :=
  match t with
  | .base _ _ _ => .error (.notImplementedError notImplMsg)
  | .running _ d w => do
      let ms ← get_mean_speed t
      return (CALORIES_MEAN_SPEED_MULTIPLIER * ms
          + CALORIES_MEAN_SPEED_SHIFT) * w / M_IN_KM * (d * HOUR_TO_MIN)
  | .sportsWalking _ d w h => do
      let ms ← get_mean_speed t
      let speed_into_ms := ms * KMH_TO_MSEC
      let height_into_m := h / M_TO_CM
      let duration_into_min := d * HOUR_TO_MIN
      let sqOverH ← pdiv (speed_into_ms ^ 2) height_into_m
      return (MULTIPLIER_1_OF_WEIGHT * w
          + sqOverH * MULTIPLIER_2_OF_WEIGHT * w) * duration_into_min
  | .swimming _ d w _ _ => do
      let ms ← get_mean_speed t
      return (ms + CALORIES_MEAN_SPEED_SHIFT_SWM)
          * (CALORIES_MEAN_SPEED_MULTIPLIER_SWM * w * d)

/-- Method `Training.show_training_info`: builds the `InfoMessage` record.
The keyword arguments of the Python call are evaluated left to right
(`training_type`, `duration`, `distance`, `speed`, `calories`), so an
exception from `get_mean_speed` precedes one from `get_spent_calories`. -/
def show_training_info (t : Training) : Except PyError InfoMessage := do
  let dist := t.get_distance
  let speed ← t.get_mean_speed
  let calories ← t.get_spent_calories
  return { training_type := t.className
           duration := t.duration
           distance := dist
           speed := speed
           calories := calories }

end Training

/-- Key set of the dispatch table `TRAIN_TYPES` (a dict from code to class
object; only membership of its keys and the class looked up are observable
in `read_package`). -/
def TRAIN_TYPES_codes : List String := ["SWM", "RUN", "WLK"]

/-- Function `read_package`: checks the code against `TRAIN_TYPES`,
raising `ValueError` for an unknown code, then calls the looked-up class
on the unpacked data list; a data list whose length does not match the
constructor's arity makes the Python call raise `TypeError`. -/
def read_package (workout_type : String) (data : List ℚ) :
    Except PyError Training :=
  if workout_type ∉ TRAIN_TYPES_codes then
    .error (.valueError (workout_type ++ ": неизвестный тип тренировки"))
  else
    match workout_type, data with
    | "SWM", [a, d, w, lp, cp] => .ok (.swimming a d w lp cp)
    | "RUN", [a, d, w] => .ok (.running a d w)
    | "WLK", [a, d, w, h] => .ok (.sportsWalking a d w h)
    | _, _ => .error (.typeError "constructor arity mismatch")

/-- Fixed-point formatting `{x:.3f}` of Python: round `x` to the nearest
thousandth (the float is modelled as an exact rational) and print the
integer part, a point, and exactly three fractional digits. -/
def formatFixed3 (q : ℚ) : String :=
  let n : ℤ := round (q * 1000)
  let sign : String := if n < 0 then "-" else ""
  let a : ℕ := n.natAbs
  sign ++ toString (a / 1000) ++ "." ++
    String.mk [Nat.digitChar (a / 100 % 10), Nat.digitChar (a / 10 % 10),
      Nat.digitChar (a % 10)]

/-- Method `InfoMessage.get_message`: the f-string template (five adjacent
literals concatenated by Python, each numeric field through `:.3f`). -/
def InfoMessage.get_message (m : InfoMessage) : String :=
  "Тип тренировки: " ++ m.training_type ++ "; " ++
    ("Длительность: " ++ formatFixed3 m.duration ++ " ч.; ") ++
    ("Дистанция: " ++ formatFixed3 m.distance ++ " км; ") ++
    ("Ср. скорость: " ++ formatFixed3 m.speed ++ " км/ч; ") ++
    ("Потрачено ккал: " ++ formatFixed3 m.calories ++ ".")

/-- A string that ends in a decimal point followed by exactly three digit
characters, with no other decimal point before it: the shape `{x:.3f}`
output must have. -/
def threeDecimals (s : String) : Prop :=
  ∃ pre a b c, s = pre ++ "." ++ String.mk [a, b, c] ∧
    ('.' ∉ pre.data) ∧ a.isDigit = true ∧ b.isDigit = true ∧
    c.isDigit = true

namespace Training

/-- State-passing form of the method call `self.get_distance()`: the body
is a single `return` of an expression that only reads `self.action` and
class attributes, with no assignment to any attribute of `self`, so the
object state after the call is the object state before it. -/
def get_distanceSt (t : Training) : ℚ × Training :=
  (t.get_distance, t)

/-- State-passing form of `self.get_mean_speed()` (both the base-class
body and the `Swimming` override only read attributes). -/
def get_mean_speedSt (t : Training) : Except PyError ℚ × Training :=
  (t.get_mean_speed, t)

/-- State-passing form of `self.get_spent_calories()`: every override
binds only local variables and reads attributes, never writing `self`. -/
def get_spent_caloriesSt (t : Training) : Except PyError ℚ × Training :=
  (t.get_spent_calories, t)

/-- State-passing form of `self.show_training_info()`: the body only
calls the reading methods above and constructs a fresh `InfoMessage`. -/
def show_training_infoSt (t : Training) :
    Except PyError InfoMessage × Training :=
  (t.show_training_info, t)

end Training

/-- Every value of `Nat.digitChar` on an actual digit is a digit
character. -/
lemma digitChar_isDigit : ∀ n, n < 10 → (Nat.digitChar n).isDigit = true := by
  decide

/-- Every character accumulated by `Nat.toDigitsCore` in base 10 is a
digit character. -/
lemma isDigit_of_mem_toDigitsCore (f : ℕ) :
    ∀ (n : ℕ) (l : List Char), (∀ c ∈ l, c.isDigit = true) →
      ∀ c ∈ Nat.toDigitsCore 10 f n l, c.isDigit = true := by
  induction f with
  | zero => intro n l hl; simpa [Nat.toDigitsCore] using hl
  | succ f ih =>
    intro n l hl c hc
    simp only [Nat.toDigitsCore] at hc
    split at hc
    · rcases List.mem_cons.mp hc with hc | hc
      · exact hc ▸ digitChar_isDigit _ (Nat.mod_lt _ (by norm_num))
      · exact hl c hc
    · refine ih (n / 10) (Nat.digitChar (n % 10) :: l) ?_ c hc
      intro c' hc'
      rcases List.mem_cons.mp hc' with hc' | hc'
      · exact hc' ▸ digitChar_isDigit _ (Nat.mod_lt _ (by norm_num))
      · exact hl c' hc'

/-- Every character of the decimal representation of a natural number is
a digit character. -/
lemma isDigit_of_mem_repr (n : ℕ) : ∀ c ∈ (Nat.repr n).data, c.isDigit = true := by
  intro c hc
  exact isDigit_of_mem_toDigitsCore (n + 1) n [] (by simp) c hc

/-- The output of `formatFixed3` always ends in a point and exactly three
digits, with no point in the integer part. -/
lemma threeDecimals_formatFixed3 (q : ℚ) : threeDecimals (formatFixed3 q) := by
  refine ⟨_, _, _, _, rfl, ?_, ?_, ?_, ?_⟩
  · intro hmem
    rw [String.data_append] at hmem
    rcases List.mem_append.mp hmem with h | h
    · split at h <;> simp_all
    · have := isDigit_of_mem_repr ((round (q * 1000)).natAbs / 1000) '.' h
      simp at this
  · exact digitChar_isDigit _ (by omega)
  · exact digitChar_isDigit _ (by omega)
  · exact digitChar_isDigit _ (by omega)

/-- Claim C1: for every `Running` workout with positive duration,
`get_spent_calories` returns
`(18.0 * mean_speed + 1.79) * weight / 1000 * (duration * 60)`, where
`mean_speed` is the value produced by `get_mean_speed`. -/
theorem spec_C1 (a d w : ℚ) (hd : 0 < d) :
    ∃ ms, Training.get_mean_speed (.running a d w) = .ok ms ∧
      Training.get_spent_calories (.running a d w) =
        .ok ((18.0 * ms + 1.79) * w / 1000 * (d * 60)) := by
  have hd' : d ≠ 0 := ne_of_gt hd
  refine ⟨a * 0.65 / 1000 / d, ?_, ?_⟩ <;>
    simp [Training.get_mean_speed, Training.get_spent_calories, pdiv, hd',
      Training.get_distance, Training.action, Training.duration,
      Training.LEN_STEP, Training.M_IN_KM, Training.HOUR_TO_MIN,
      Training.CALORIES_MEAN_SPEED_MULTIPLIER,
      Training.CALORIES_MEAN_SPEED_SHIFT]

/-- Witness for C1 at the `RUN` package `[15000, 1, 75]`. -/
theorem spec_C1_witness :
    (0 : ℚ) < 1 ∧
    ∃ ms, Training.get_mean_speed (.running 15000 1 75) = .ok ms ∧
      Training.get_spent_calories (.running 15000 1 75) =
        .ok ((18.0 * ms + 1.79) * 75 / 1000 * (1 * 60)) :=
  ⟨by norm_num, spec_C1 15000 1 75 (by norm_num)⟩

/-- Claim C2: for every `SportsWalking` workout with positive duration
and positive height, `get_spent_calories` returns
`(0.035 * weight + (mean_speed_m_s ^ 2 / height_m) * 0.029 * weight) *
(duration * 60)` with `mean_speed_m_s = mean_speed * 0.278` and
`height_m = height / 100`; and the `WLK` package `[9000, 1, 75, 180]` has
distance `5.85` km. -/
theorem spec_C2 (a d w h : ℚ) (hd : 0 < d) (hh : 0 < h) :
    (∃ ms, Training.get_mean_speed (.sportsWalking a d w h) = .ok ms ∧
      Training.get_spent_calories (.sportsWalking a d w h) =
        .ok ((0.035 * w + ((ms * 0.278) ^ 2 / (h / 100)) * 0.029 * w)
          * (d * 60))) ∧
    Training.get_distance (.sportsWalking 9000 1 75 180) = 5.85 := by
  have hd' : d ≠ 0 := ne_of_gt hd
  have hh' : h / 100 ≠ 0 := by positivity
  refine ⟨⟨a * 0.65 / 1000 / d, ?_, ?_⟩, ?_⟩
  · simp [Training.get_mean_speed, pdiv, hd', Training.get_distance,
      Training.action, Training.duration, Training.LEN_STEP, Training.M_IN_KM]
  · simp [Training.get_spent_calories, Training.get_mean_speed, pdiv, hd',
      hh', Except.bind, Training.get_distance, Training.action,
      Training.duration, Training.LEN_STEP, Training.M_IN_KM,
      Training.HOUR_TO_MIN, Training.MULTIPLIER_1_OF_WEIGHT,
      Training.MULTIPLIER_2_OF_WEIGHT, Training.KMH_TO_MSEC,
      Training.M_TO_CM]
    rfl
  · norm_num [Training.get_distance, Training.action, Training.LEN_STEP,
      Training.M_IN_KM]

/-- Witness for C2 at the `WLK` package `[9000, 1, 75, 180]`. -/
theorem spec_C2_witness :
    ((0 : ℚ) < 1 ∧ (0 : ℚ) < 180) ∧
    ((∃ ms, Training.get_mean_speed (.sportsWalking 9000 1 75 180) = .ok ms ∧
      Training.get_spent_calories (.sportsWalking 9000 1 75 180) =
        .ok ((0.035 * 75 + ((ms * 0.278) ^ 2 / (180 / 100)) * 0.029 * 75)
          * (1 * 60))) ∧
    Training.get_distance (.sportsWalking 9000 1 75 180) = 5.85) :=
  ⟨⟨by norm_num, by norm_num⟩,
    spec_C2 9000 1 75 180 (by norm_num) (by norm_num)⟩

/-- Claim C3: for every `Swimming` workout with positive duration,
`get_spent_calories` returns `(mean_speed + 1.1) * 2 * weight * duration`;
and the package dispatched from code `SWM` with data `[720, 1, 80, 25,
40]` has mean speed exactly `1` km/h and calories exactly `336`. -/
theorem spec_C3 (a d w lp cp : ℚ) (hd : 0 < d) :
    (∃ ms, Training.get_mean_speed (.swimming a d w lp cp) = .ok ms ∧
      Training.get_spent_calories (.swimming a d w lp cp) =
        .ok ((ms + 1.1) * 2 * w * d)) ∧
    read_package "SWM" [720, 1, 80, 25, 40] = .ok (.swimming 720 1 80 25 40) ∧
    Training.get_mean_speed (.swimming 720 1 80 25 40) = .ok 1 ∧
    Training.get_spent_calories (.swimming 720 1 80 25 40) = .ok 336 := by
  have hd' : d ≠ 0 := ne_of_gt hd
  refine ⟨⟨lp * cp / 1000 / d, ?_, ?_⟩, rfl, ?_, ?_⟩
  · simp [Training.get_mean_speed, pdiv, hd', Training.M_IN_KM]
  · simp [Training.get_spent_calories, Training.get_mean_speed, pdiv, hd',
      Training.M_IN_KM, Training.CALORIES_MEAN_SPEED_SHIFT_SWM,
      Training.CALORIES_MEAN_SPEED_MULTIPLIER_SWM]
    ring
  · norm_num [Training.get_mean_speed, pdiv, Training.M_IN_KM]
  · norm_num [Training.get_spent_calories, Training.get_mean_speed, pdiv,
      Training.M_IN_KM, Training.CALORIES_MEAN_SPEED_SHIFT_SWM,
      Training.CALORIES_MEAN_SPEED_MULTIPLIER_SWM]

/-- Witness for C3 at the `SWM` package `[720, 1, 80, 25, 40]`. -/
theorem spec_C3_witness :
    (0 : ℚ) < 1 ∧
    ((∃ ms, Training.get_mean_speed (.swimming 720 1 80 25 40) = .ok ms ∧
      Training.get_spent_calories (.swimming 720 1 80 25 40) =
        .ok ((ms + 1.1) * 2 * 80 * 1)) ∧
    read_package "SWM" [720, 1, 80, 25, 40] = .ok (.swimming 720 1 80 25 40) ∧
    Training.get_mean_speed (.swimming 720 1 80 25 40) = .ok 1 ∧
    Training.get_spent_calories (.swimming 720 1 80 25 40) = .ok 336) :=
  ⟨by norm_num, spec_C3 720 1 80 25 40 (by norm_num)⟩

/-- Claim C4: for positive duration, `get_mean_speed` is
`get_distance() / duration` on `Running` and `SportsWalking`, but on
`Swimming` it is `length_pool * count_pool / 1000 / duration`, ignoring
the generic action-based distance. -/
theorem spec_C4 (a d w h lp cp : ℚ) (hd : 0 < d) :
    Training.get_mean_speed (.running a d w) =
      .ok (Training.get_distance (.running a d w) / d) ∧
    Training.get_mean_speed (.sportsWalking a d w h) =
      .ok (Training.get_distance (.sportsWalking a d w h) / d) ∧
    Training.get_mean_speed (.swimming a d w lp cp) =
      .ok (lp * cp / 1000 / d) := by
  have hd' : d ≠ 0 := ne_of_gt hd
  refine ⟨?_, ?_, ?_⟩ <;>
    simp [Training.get_mean_speed, pdiv, hd', Training.duration,
      Training.M_IN_KM]

/-- Witness for C4 at action 15000, duration 1, weight 75, height 180,
pool length 25, lap count 40. -/
theorem spec_C4_witness :
    (0 : ℚ) < 1 ∧
    (Training.get_mean_speed (.running 15000 1 75) =
      .ok (Training.get_distance (.running 15000 1 75) / 1) ∧
    Training.get_mean_speed (.sportsWalking 15000 1 75 180) =
      .ok (Training.get_distance (.sportsWalking 15000 1 75 180) / 1) ∧
    Training.get_mean_speed (.swimming 15000 1 75 25 40) =
      .ok (25 * 40 / 1000 / 1)) :=
  ⟨by norm_num, spec_C4 15000 1 75 180 25 40 (by norm_num)⟩

/-- Claim C5: `get_distance` returns `action * step_length / 1000` with
step length `0.65` for `Running` and `SportsWalking` and `1.38` for
`Swimming`; the `RUN` package `[15000, 1, 75]` has distance `9.75` km. -/
theorem spec_C5 (a d w h lp cp : ℚ) :
    Training.get_distance (.running a d w) = a * 0.65 / 1000 ∧
    Training.get_distance (.sportsWalking a d w h) = a * 0.65 / 1000 ∧
    Training.get_distance (.swimming a d w lp cp) = a * 1.38 / 1000 ∧
    Training.get_distance (.running 15000 1 75) = 9.75 := by
  refine ⟨rfl, rfl, rfl, by norm_num [Training.get_distance, Training.action,
    Training.LEN_STEP, Training.M_IN_KM]⟩

/-- Claim C6: `read_package` yields the unknown-workout-type error (the
`ValueError` of the source) exactly when the code is outside
`{SWM, RUN, WLK}`, the error being returned to the caller rather than
recovered; each known code constructs the matching variant from the
positional data. -/
theorem spec_C6 (wt : String) (data : List ℚ) (a d w h lp cp : ℚ) :
    ((∃ msg, read_package wt data = .error (.valueError msg)) ↔
      wt ∉ TRAIN_TYPES_codes) ∧
    read_package "SWM" [a, d, w, lp, cp] = .ok (.swimming a d w lp cp) ∧
    read_package "RUN" [a, d, w] = .ok (.running a d w) ∧
    read_package "WLK" [a, d, w, h] = .ok (.sportsWalking a d w h) := by
  refine ⟨⟨?_, ?_⟩, rfl, rfl, rfl⟩
  · rintro ⟨msg, hEq⟩ hmem
    unfold read_package at hEq
    rw [if_neg (by simpa using hmem)] at hEq
    split at hEq <;> simp_all
  · intro hnot
    exact ⟨_, by unfold read_package; rw [if_pos hnot]⟩

/-- Claim C7: `get_message` produces exactly the fixed template line, the
four numeric fields each rendered with exactly three decimal places. -/
theorem spec_C7 (m : InfoMessage) :
    m.get_message =
      "Тип тренировки: " ++ m.training_type ++ "; " ++
        ("Длительность: " ++ formatFixed3 m.duration ++ " ч.; ") ++
        ("Дистанция: " ++ formatFixed3 m.distance ++ " км; ") ++
        ("Ср. скорость: " ++ formatFixed3 m.speed ++ " км/ч; ") ++
        ("Потрачено ккал: " ++ formatFixed3 m.calories ++ ".") ∧
    threeDecimals (formatFixed3 m.duration) ∧
    threeDecimals (formatFixed3 m.distance) ∧
    threeDecimals (formatFixed3 m.speed) ∧
    threeDecimals (formatFixed3 m.calories) :=
  ⟨rfl, threeDecimals_formatFixed3 _, threeDecimals_formatFixed3 _,
    threeDecimals_formatFixed3 _, threeDecimals_formatFixed3 _⟩

/-- Claim C8: each calculator method leaves the workout record unchanged
(so all fields are preserved) and a second call on the resulting state
returns the same value as the first: the computations are deterministic
pure functions with no hidden state. -/
theorem spec_C8 (t : Training) :
    (t.get_distanceSt.2 = t ∧
      (t.get_distanceSt.2).get_distanceSt.1 = t.get_distanceSt.1) ∧
    (t.get_mean_speedSt.2 = t ∧
      (t.get_mean_speedSt.2).get_mean_speedSt.1 = t.get_mean_speedSt.1) ∧
    (t.get_spent_caloriesSt.2 = t ∧
      (t.get_spent_caloriesSt.2).get_spent_caloriesSt.1 =
        t.get_spent_caloriesSt.1) ∧
    (t.show_training_infoSt.2 = t ∧
      (t.show_training_infoSt.2).show_training_infoSt.1 =
        t.show_training_infoSt.1) :=
  ⟨⟨rfl, rfl⟩, ⟨rfl, rfl⟩, ⟨rfl, rfl⟩, ⟨rfl, rfl⟩⟩

/-- Claim C9: the type field of the result of `show_training_info` is the
concrete class name (`Running`, `SportsWalking`, `Swimming`), not the
three-letter dispatch code. -/
theorem spec_C9 (a d w h lp cp : ℚ) (hd : d ≠ 0) (hh : h ≠ 0) :
    (Training.show_training_info (.running a d w)).map
      InfoMessage.training_type = .ok "Running" ∧
    (Training.show_training_info (.sportsWalking a d w h)).map
      InfoMessage.training_type = .ok "SportsWalking" ∧
    (Training.show_training_info (.swimming a d w lp cp)).map
      InfoMessage.training_type = .ok "Swimming" ∧
    ("Running" ≠ "RUN" ∧ "SportsWalking" ≠ "WLK" ∧ "Swimming" ≠ "SWM") := by
  have hh' : h / Training.M_TO_CM ≠ 0 := by
    simp [Training.M_TO_CM, hh]
  refine ⟨?_, ?_, ?_, by decide, by decide, by decide⟩ <;>
    simp [Training.show_training_info, Training.get_mean_speed,
      Training.get_spent_calories, pdiv, hd, hh', Training.className,
      Training.duration, Except.bind, Except.map] <;> rfl

/-- Witness for C9 at action 15000, duration 1, weight 75, height 180,
pool length 25, lap count 40. -/
theorem spec_C9_witness :
    ((1 : ℚ) ≠ 0 ∧ (180 : ℚ) ≠ 0) ∧
    ((Training.show_training_info (.running 15000 1 75)).map
      InfoMessage.training_type = .ok "Running" ∧
    (Training.show_training_info (.sportsWalking 15000 1 75 180)).map
      InfoMessage.training_type = .ok "SportsWalking" ∧
    (Training.show_training_info (.swimming 15000 1 75 25 40)).map
      InfoMessage.training_type = .ok "Swimming" ∧
    ("Running" ≠ "RUN" ∧ "SportsWalking" ≠ "WLK" ∧ "Swimming" ≠ "SWM")) :=
  ⟨⟨by norm_num, by norm_num⟩, spec_C9 15000 1 75 180 25 40 (by norm_num)
    (by norm_num)⟩

/-- Counterexample to C10 as stated: on a base `Training` instance with
duration 0, `show_training_info` raises `ZeroDivisionError` (from the
mean-speed division, evaluated before the calories argument), not
`NotImplementedError`. -/
theorem spec_C10_cex :
    Training.show_training_info (.base 1 0 1) =
      .error PyError.zeroDivisionError ∧
    (Except.error PyError.zeroDivisionError ≠
      (.error (.notImplementedError Training.notImplMsg) :
        Except PyError InfoMessage)) :=
  ⟨rfl, by simp⟩

/-- Claim C10 (amended): `get_spent_calories` on a base `Training`
instance raises `NotImplementedError` for every input record, and
`show_training_info` does so for every record with nonzero duration (with
duration 0 the mean-speed division raises `ZeroDivisionError` first). -/
theorem spec_C10 (a d w : ℚ) (hd : d ≠ 0) :
    (∀ dur, Training.get_spent_calories (.base a dur w) =
      .error (.notImplementedError Training.notImplMsg)) ∧
    Training.show_training_info (.base a d w) =
      .error (.notImplementedError Training.notImplMsg) := by
  refine ⟨fun dur => rfl, ?_⟩
  simp [Training.show_training_info, Training.get_mean_speed,
    Training.get_spent_calories, pdiv, hd, Training.duration, Except.bind]
  rfl

/-- Witness for the amended C10 at action 1, duration 1, weight 1. -/
theorem spec_C10_witness :
    (1 : ℚ) ≠ 0 ∧
    ((∀ dur, Training.get_spent_calories (.base 1 dur 1) =
      .error (.notImplementedError Training.notImplMsg)) ∧
    Training.show_training_info (.base 1 1 1) =
      .error (.notImplementedError Training.notImplMsg)) :=
  ⟨by norm_num, spec_C10 1 1 1 (by norm_num)⟩
